import Mathlib

/-!
Verification development for the `crystal` module of AtomicBSM.

The module computes crystallographic lattice geometry and coherent-scattering
structure factors for a small fixed set of detector materials.  We embed the
`Detector` and `Crystal` classes and the `get_crystal` factory shallowly:
numpy length-3 arrays become `Vec3` (a record of three reals), the one-time
reference-data load of `det_params.json` becomes an abstract lookup map
`DetFile`, Python exceptions become `Except`, and Miller indices are integers.
-/

noncomputable section

namespace AtomicBSM

open Real

/-- Vector with three real components, the embedding of a numpy length-3 array. -/
@[ext]
structure Vec3 where
  x : ℝ
  y : ℝ
  z : ℝ

instance : Zero Vec3 := ⟨⟨0, 0, 0⟩⟩

instance : Add Vec3 := ⟨fun u v => ⟨u.x + v.x, u.y + v.y, u.z + v.z⟩⟩

instance : SMul ℝ Vec3 := ⟨fun c v => ⟨c * v.x, c * v.y, c * v.z⟩⟩

/-- Dot product of two 3-vectors (`dot` from `math_helper`). -/
def dot (u v : Vec3) : ℝ := u.x * v.x + u.y * v.y + u.z * v.z

/-- Cross product of two 3-vectors (`cross` from `math_helper`). -/
def cross (u v : Vec3) : Vec3 :=
  ⟨u.y * v.z - u.z * v.y, u.z * v.x - u.x * v.z, u.x * v.y - u.y * v.x⟩

/-- Componentwise division of a numpy vector by a scalar (`vec / c`). -/
def vdiv (v : Vec3) (c : ℝ) : Vec3 := ⟨v.x / c, v.y / c, v.z / c⟩

/-- Modelled from the spec: the physical constant `HBARC` (hbar times c) imported
from the constants module, which is not under `src/`; all units are MeV and cm. -/
def HBARC : ℝ := 1.97327e-11

/-- Modelled from the spec: one entry of the reference data source
`det_params.json`, a mapping of named physical constants for one material. -/
structure DetInfo where
  iso : ℤ
  z : List ℝ
  n : List ℝ
  m : List ℝ
  frac : List ℝ
  lattice_const : ℝ
  cell_volume : ℝ
  atomic_radius : ℝ
  er_min : ℝ
  er_max : ℝ
  bg : ℝ
  bg_un : ℝ

/-- Modelled from the spec: the reference-data collaborator, whose contract is
"given a material name, return a mapping of named physical constants, or
indicate absence". -/
abbrev DetFile := String → Option DetInfo

/-- Lower-casing of one ASCII character, the embedding of Python `str.lower`
on the alphabet actually used by material names. -/
def lowerChar (c : Char) : Char :=
  if 65 ≤ c.toNat ∧ c.toNat ≤ 90 then Char.ofNat (c.toNat + 32) else c

/-- Embedding of Python `str.lower` as a structurally recursive map over the
characters of the string. -/
def strLower (s : String) : String := String.mk (s.data.map lowerChar)

/-- Fields stored by `Detector.__init__` on the success path. -/
structure Detector where
  det_type : String
  efficiency : Option ℝ
  iso : ℤ
  z : List ℝ
  n : List ℝ
  m : List ℝ
  frac : List ℝ
  lattice_const : ℝ
  cell_volume : ℝ
  r0 : ℝ
  er_min : ℝ
  er_max : ℝ
  bg : ℝ
  bg_un : ℝ
  fid_mass : ℝ
  volume : ℝ
  density : ℝ

/-- Embedding of `Detector.__init__`: look up `det_type.lower()` in the loaded
reference data; store the named constants on a hit, raise on a miss. -/
def Detector.init (det_file : DetFile) (det_type : String)
    (fiducial_mass volume density : ℝ) (efficiency : Option ℝ) :
    Except String Detector :=
  match det_file (strLower det_type) with
  | some det_info =>
      Except.ok
        { det_type := det_type
          efficiency := efficiency
          iso := det_info.iso
          z := det_info.z
          n := det_info.n
          m := det_info.m
          frac := det_info.frac
          lattice_const := det_info.lattice_const
          cell_volume := det_info.cell_volume
          r0 := det_info.atomic_radius
          er_min := det_info.er_min
          er_max := det_info.er_max
          bg := det_info.bg
          bg_un := det_info.bg_un
          fid_mass := fiducial_mass
          volume := volume
          density := density }
  | none => Except.error "No such detector in det_params.json."

/-- Fields stored by `Crystal.__init__` beyond the inherited `Detector` fields. -/
structure Crystal extends Detector where
  a : ℝ
  alpha : List Vec3
  a0 : Vec3
  a1 : Vec3
  a2 : Vec3
  a3 : Vec3
  basis : List Vec3
  b1 : Vec3
  b2 : Vec3
  b3 : Vec3

/-- Direct-to-reciprocal lattice transform, first vector:
`b1 = 2*pi*cross(a2, a3) / dot(a1, cross(a2, a3))`. -/
def recip1 (A1 A2 A3 : Vec3) : Vec3 :=
  vdiv ((2 * π) • cross A2 A3) (dot A1 (cross A2 A3))

/-- Direct-to-reciprocal lattice transform, second vector:
`b2 = 2*pi*cross(a3, a1) / dot(a1, cross(a2, a3))`. -/
def recip2 (A1 A2 A3 : Vec3) : Vec3 :=
  vdiv ((2 * π) • cross A3 A1) (dot A1 (cross A2 A3))

/-- Direct-to-reciprocal lattice transform, third vector:
`b3 = 2*pi*cross(a1, a2) / dot(a1, cross(a2, a3))`. -/
def recip3 (A1 A2 A3 : Vec3) : Vec3 :=
  vdiv ((2 * π) • cross A1 A2) (dot A1 (cross A2 A3))

/-- Body of `Crystal.__init__` after the `Detector` part succeeded: scale the
primitives and Bravais vectors by the lattice constant and derive the
reciprocal-lattice vectors. -/
def mkCrystal (d : Detector) (primitives : List Vec3) (a1 a2 a3 : Vec3) : Crystal :=
  let a := d.lattice_const
  let A0 : Vec3 := a • (⟨0, 0, 0⟩ : Vec3)
  let A1 := a • a1
  let A2 := a • a2
  let A3 := a • a3
  { toDetector := d
    a := a
    alpha := primitives.map (fun p => a • p)
    a0 := A0
    a1 := A1
    a2 := A2
    a3 := A3
    basis := [A0, A1, A2, A3]
    b1 := recip1 A1 A2 A3
    b2 := recip2 A1 A2 A3
    b3 := recip3 A1 A2 A3 }

/-- Embedding of `Crystal.__init__`: run the `Detector` constructor (which can
raise) and then the pure lattice computation. -/
def Crystal.init (det_file : DetFile) (material : String) (primitives : List Vec3)
    (a1 a2 a3 : Vec3) (volume density fiducial_mass : ℝ) : Except String Crystal :=
  (Detector.init det_file material fiducial_mass volume density none).map
    (fun d => mkCrystal d primitives a1 a2 a3)

/-- Embedding of `Crystal.r`: the direct-lattice point `n1*a1 + n2*a2 + n3*a3`. -/
def Crystal.r (c : Crystal) (n1 n2 n3 : ℤ) : Vec3 :=
  (n1 : ℝ) • c.a1 + (n2 : ℝ) • c.a2 + (n3 : ℝ) • c.a3

/-- Embedding of `Crystal.G`: the reciprocal-lattice point `h*b1 + k*b2 + l*b3`. -/
def Crystal.G (c : Crystal) (h k l : ℤ) : Vec3 :=
  (h : ℝ) • c.b1 + (k : ℝ) • c.b2 + (l : ℝ) • c.b3

/-- Embedding of `Crystal.wavelength`: `2*pi / sqrt(dot(G, G))`. -/
def Crystal.wavelength (c : Crystal) (h k l : ℤ) : ℝ :=
  2 * π / Real.sqrt (dot (c.G h k l) (c.G h k l))

/-- Embedding of `Crystal.energy`: `HBARC * sqrt(dot(G, G))`. -/
def Crystal.energy (c : Crystal) (h k l : ℤ) : ℝ :=
  HBARC * Real.sqrt (dot (c.G h k l) (c.G h k l))

/-- Embedding of `Crystal.miller`: the Miller-index triple as a vector. -/
def Crystal.miller (_c : Crystal) (h k l : ℤ) : Vec3 := ⟨(h : ℝ), (k : ℝ), (l : ℝ)⟩

/-- Embedding of `Crystal.sfunc`, the structure-factor magnitude.  The source
reads `self.alpha[1]`; we read index 1 with default zero for totality (every
crystal built by `get_crystal` has exactly two primitives, so the default is
never taken there). -/
def Crystal.sfunc (c : Crystal) (h k l : ℤ) : ℝ :=
  Complex.abs
    ((1 + Complex.exp (-(Complex.ofReal (dot (c.alpha.getD 1 0) (c.G h k l))) * Complex.I)) *
      (c.basis.map (fun avec =>
        Complex.exp
          (-(Complex.ofReal (2 * π * dot (c.miller h k l) (vdiv avec c.a))) * Complex.I))).sum)

/-- Lattice vectors indexed by position, for stating the duality relations. -/
def Crystal.aIdx (c : Crystal) : Fin 3 → Vec3
  | 0 => c.a1
  | 1 => c.a2
  | 2 => c.a3

/-- Reciprocal vectors indexed by position, for stating the duality relations. -/
def Crystal.bIdx (c : Crystal) : Fin 3 → Vec3
  | 0 => c.b1
  | 1 => c.b2
  | 2 => c.b3

/-- Transcription of the specification's structure-factor formula: the magnitude
of `(1 + exp(-i*dot(alpha[1], G)))` multiplied by the sum over the four basis
vectors `a0, a1, a2, a3` of `exp(-2*pi*i*dot((h,k,l), v/a))`. -/
def sfuncSpec (c : Crystal) (h k l : ℤ) : ℝ :=
  Complex.abs
    ((1 + Complex.exp (-(Complex.ofReal (dot (c.alpha.getD 1 0) (c.G h k l))) * Complex.I)) *
      (Complex.exp (-(Complex.ofReal (2 * π * dot (c.miller h k l) (vdiv c.a0 c.a))) * Complex.I)
        + Complex.exp (-(Complex.ofReal (2 * π * dot (c.miller h k l) (vdiv c.a1 c.a))) * Complex.I)
        + Complex.exp (-(Complex.ofReal (2 * π * dot (c.miller h k l) (vdiv c.a2 c.a))) * Complex.I)
        + Complex.exp (-(Complex.ofReal (2 * π * dot (c.miller h k l) (vdiv c.a3 c.a))) * Complex.I)))

/-- State-passing form of `Crystal.r`.  The method body is a single return
expression containing no assignment to `self`, so its faithful state-passing
translation returns the receiver unchanged as the post-state. -/
def Crystal.rCall (c : Crystal) (n1 n2 n3 : ℤ) : Vec3 × Crystal := (c.r n1 n2 n3, c)

/-- State-passing form of `Crystal.G` (no assignment to `self` in the body). -/
def Crystal.GCall (c : Crystal) (h k l : ℤ) : Vec3 × Crystal := (c.G h k l, c)

/-- State-passing form of `Crystal.wavelength` (no assignment to `self`). -/
def Crystal.wavelengthCall (c : Crystal) (h k l : ℤ) : ℝ × Crystal := (c.wavelength h k l, c)

/-- State-passing form of `Crystal.energy` (no assignment to `self`). -/
def Crystal.energyCall (c : Crystal) (h k l : ℤ) : ℝ × Crystal := (c.energy h k l, c)

/-- State-passing form of `Crystal.miller` (no assignment to `self`). -/
def Crystal.millerCall (c : Crystal) (h k l : ℤ) : Vec3 × Crystal := (c.miller h k l, c)

/-- State-passing form of `Crystal.sfunc` (no assignment to `self`). -/
def Crystal.sfuncCall (c : Crystal) (h k l : ℤ) : ℝ × Crystal := (c.sfunc h k l, c)

/-- Name list of supported materials. -/
def cryslist : List String := ["Ge", "Si", "NaI", "CsI"]

/-- Germanium primitive basis vector `GeAlpha0`. -/
def geAlpha0 : Vec3 := ⟨0, 0, 0⟩

/-- Germanium primitive basis vector `GeAlpha1`. -/
def geAlpha1 : Vec3 := ⟨0.25, 0.25, 0.25⟩

/-- Sodium-iodide primitive basis vector `Alpha0`. -/
def naiAlpha0 : Vec3 := ⟨0, 0, 0⟩

/-- Sodium-iodide primitive basis vector `Alpha1`. -/
def naiAlpha1 : Vec3 := ⟨0.5, 0.5, 0.5⟩

/-- Face-centered-cubic Bravais vector `A1` used for both materials. -/
def fccA1 : Vec3 := ⟨0, 0.5, 0.5⟩

/-- Face-centered-cubic Bravais vector `A2` used for both materials. -/
def fccA2 : Vec3 := ⟨0.5, 0, 0.5⟩

/-- Face-centered-cubic Bravais vector `A3` used for both materials. -/
def fccA3 : Vec3 := ⟨0.5, 0.5, 0⟩

/-- Embedding of `get_crystal`: `Except.ok none` models the `return None`
paths (name not in `cryslist`, or the stubbed materials), `Except.ok (some c)`
a constructed crystal, and `Except.error` a propagated constructor exception. -/
def get_crystal (det_file : DetFile) (name : String) : Except String (Option Crystal) :=
  if name ∉ cryslist then Except.ok none
  else if name = "Ge" then
    (Crystal.init det_file name [geAlpha0, geAlpha1] fccA1 fccA2 fccA3 1 1 1).map some
  else if name = "Si" then Except.ok none
  else if name = "NaI" then
    (Crystal.init det_file name [naiAlpha0, naiAlpha1] fccA1 fccA2 fccA3 1 1 1).map some
  else Except.ok none

/-- Concrete reference-data entry used to exercise the constructors. -/
def sampleInfo : DetInfo :=
  { iso := 1
    z := [32]
    n := [41]
    m := [67]
    frac := [1]
    lattice_const := 1
    cell_volume := 1
    atomic_radius := 1
    er_min := 0
    er_max := 1
    bg := 0
    bg_un := 0 }

/-- Reference-data map that knows every material (constant lookup). -/
def sampleDetFile : DetFile := fun _ => some sampleInfo

/-- Reference-data map that knows no material at all. -/
def emptyDetFile : DetFile := fun _ => none

/-- The detector produced by `Detector.init sampleDetFile "ge" 1 1 1 none`. -/
def sampleDetector : Detector :=
  { det_type := "ge"
    efficiency := none
    iso := 1
    z := [32]
    n := [41]
    m := [67]
    frac := [1]
    lattice_const := 1
    cell_volume := 1
    r0 := 1
    er_min := 0
    er_max := 1
    bg := 0
    bg_un := 0
    fid_mass := 1
    volume := 1
    density := 1 }

/-- Primitive list used by the sample crystal. -/
def samplePrims : List Vec3 := [⟨0, 0, 0⟩, ⟨1, 1, 1⟩]

/-- Standard basis vector `(1, 0, 0)`. -/
def e1 : Vec3 := ⟨1, 0, 0⟩

/-- Standard basis vector `(0, 1, 0)`. -/
def e2 : Vec3 := ⟨0, 1, 0⟩

/-- Standard basis vector `(0, 0, 1)`. -/
def e3 : Vec3 := ⟨0, 0, 1⟩

/-- Simple cubic sample crystal with unit lattice constant. -/
def sampleCrystal : Crystal := mkCrystal sampleDetector samplePrims e1 e2 e3

/-- The germanium crystal produced by `get_crystal sampleDetFile "Ge"`. -/
def geSampleCrystal : Crystal :=
  mkCrystal
    { sampleDetector with det_type := "Ge" }
    [geAlpha0, geAlpha1] fccA1 fccA2 fccA3

/-! Helper lemmas about the vector algebra and the constructors. -/

@[simp] theorem zero_x : (0 : Vec3).x = 0 := rfl

@[simp] theorem zero_y : (0 : Vec3).y = 0 := rfl

@[simp] theorem zero_z : (0 : Vec3).z = 0 := rfl

@[simp] theorem add_x (u v : Vec3) : (u + v).x = u.x + v.x := rfl

@[simp] theorem add_y (u v : Vec3) : (u + v).y = u.y + v.y := rfl

@[simp] theorem add_z (u v : Vec3) : (u + v).z = u.z + v.z := rfl

@[simp] theorem smul_x (c : ℝ) (v : Vec3) : (c • v).x = c * v.x := rfl

@[simp] theorem smul_y (c : ℝ) (v : Vec3) : (c • v).y = c * v.y := rfl

@[simp] theorem smul_z (c : ℝ) (v : Vec3) : (c • v).z = c * v.z := rfl

@[simp] theorem dot_zero_right (u : Vec3) : dot u 0 = 0 := by
  simp [dot]

@[simp] theorem dot_add_right (u v w : Vec3) : dot u (v + w) = dot u v + dot u w := by
  simp [dot]; ring

@[simp] theorem dot_smul_right (c : ℝ) (u v : Vec3) : dot u (c • v) = c * dot u v := by
  simp [dot]; ring

theorem dot_self_nonneg (v : Vec3) : 0 ≤ dot v v := by
  simp only [dot]
  nlinarith [sq_nonneg v.x, sq_nonneg v.y, sq_nonneg v.z]

theorem dot_self_pos (v : Vec3) (hv : v ≠ 0) : 0 < dot v v := by
  have hcomp : ¬(v.x = 0 ∧ v.y = 0 ∧ v.z = 0) := by
    intro ⟨h1, h2, h3⟩
    exact hv (Vec3.ext h1 h2 h3)
  simp only [dot]
  rcases not_and_or.mp hcomp with h1 | h2
  · have hx : 0 < v.x * v.x := mul_self_pos.mpr h1
    nlinarith [mul_self_nonneg v.y, mul_self_nonneg v.z]
  · rcases not_and_or.mp h2 with h3 | h4
    · have hy : 0 < v.y * v.y := mul_self_pos.mpr h3
      nlinarith [mul_self_nonneg v.x, mul_self_nonneg v.z]
    · have hz : 0 < v.z * v.z := mul_self_pos.mpr h4
      nlinarith [mul_self_nonneg v.x, mul_self_nonneg v.y]

theorem dot_a1_b1 (A1 A2 A3 : Vec3) (ht : dot A1 (cross A2 A3) ≠ 0) :
    dot A1 (recip1 A1 A2 A3) = 2 * π := by
  simp only [dot, cross] at ht
  simp only [recip1, vdiv, dot, cross, smul_x, smul_y, smul_z]
  field_simp
  ring

theorem dot_a1_b2 (A1 A2 A3 : Vec3) (ht : dot A1 (cross A2 A3) ≠ 0) :
    dot A1 (recip2 A1 A2 A3) = 0 := by
  simp only [dot, cross] at ht
  simp only [recip2, vdiv, dot, cross, smul_x, smul_y, smul_z]
  field_simp
  ring

theorem dot_a1_b3 (A1 A2 A3 : Vec3) (ht : dot A1 (cross A2 A3) ≠ 0) :
    dot A1 (recip3 A1 A2 A3) = 0 := by
  simp only [dot, cross] at ht
  simp only [recip3, vdiv, dot, cross, smul_x, smul_y, smul_z]
  field_simp
  ring

theorem dot_a2_b1 (A1 A2 A3 : Vec3) (ht : dot A1 (cross A2 A3) ≠ 0) :
    dot A2 (recip1 A1 A2 A3) = 0 := by
  simp only [dot, cross] at ht
  simp only [recip1, vdiv, dot, cross, smul_x, smul_y, smul_z]
  field_simp
  ring

theorem dot_a2_b2 (A1 A2 A3 : Vec3) (ht : dot A1 (cross A2 A3) ≠ 0) :
    dot A2 (recip2 A1 A2 A3) = 2 * π := by
  simp only [dot, cross] at ht
  simp only [recip2, vdiv, dot, cross, smul_x, smul_y, smul_z]
  field_simp
  ring

theorem dot_a2_b3 (A1 A2 A3 : Vec3) (ht : dot A1 (cross A2 A3) ≠ 0) :
    dot A2 (recip3 A1 A2 A3) = 0 := by
  simp only [dot, cross] at ht
  simp only [recip3, vdiv, dot, cross, smul_x, smul_y, smul_z]
  field_simp
  ring

theorem dot_a3_b1 (A1 A2 A3 : Vec3) (ht : dot A1 (cross A2 A3) ≠ 0) :
    dot A3 (recip1 A1 A2 A3) = 0 := by
  simp only [dot, cross] at ht
  simp only [recip1, vdiv, dot, cross, smul_x, smul_y, smul_z]
  field_simp
  ring

theorem dot_a3_b2 (A1 A2 A3 : Vec3) (ht : dot A1 (cross A2 A3) ≠ 0) :
    dot A3 (recip2 A1 A2 A3) = 0 := by
  simp only [dot, cross] at ht
  simp only [recip2, vdiv, dot, cross, smul_x, smul_y, smul_z]
  field_simp
  ring

theorem dot_a3_b3 (A1 A2 A3 : Vec3) (ht : dot A1 (cross A2 A3) ≠ 0) :
    dot A3 (recip3 A1 A2 A3) = 2 * π := by
  simp only [dot, cross] at ht
  simp only [recip3, vdiv, dot, cross, smul_x, smul_y, smul_z]
  field_simp
  ring

@[simp] theorem mkCrystal_a (d : Detector) (ps : List Vec3) (v1 v2 v3 : Vec3) :
    (mkCrystal d ps v1 v2 v3).a = d.lattice_const := rfl

@[simp] theorem mkCrystal_alpha (d : Detector) (ps : List Vec3) (v1 v2 v3 : Vec3) :
    (mkCrystal d ps v1 v2 v3).alpha = ps.map (fun p => d.lattice_const • p) := rfl

@[simp] theorem mkCrystal_a0 (d : Detector) (ps : List Vec3) (v1 v2 v3 : Vec3) :
    (mkCrystal d ps v1 v2 v3).a0 = d.lattice_const • (⟨0, 0, 0⟩ : Vec3) := rfl

@[simp] theorem mkCrystal_a1 (d : Detector) (ps : List Vec3) (v1 v2 v3 : Vec3) :
    (mkCrystal d ps v1 v2 v3).a1 = d.lattice_const • v1 := rfl

@[simp] theorem mkCrystal_a2 (d : Detector) (ps : List Vec3) (v1 v2 v3 : Vec3) :
    (mkCrystal d ps v1 v2 v3).a2 = d.lattice_const • v2 := rfl

@[simp] theorem mkCrystal_a3 (d : Detector) (ps : List Vec3) (v1 v2 v3 : Vec3) :
    (mkCrystal d ps v1 v2 v3).a3 = d.lattice_const • v3 := rfl

@[simp] theorem mkCrystal_basis (d : Detector) (ps : List Vec3) (v1 v2 v3 : Vec3) :
    (mkCrystal d ps v1 v2 v3).basis =
      [d.lattice_const • (⟨0, 0, 0⟩ : Vec3), d.lattice_const • v1,
        d.lattice_const • v2, d.lattice_const • v3] := rfl

@[simp] theorem mkCrystal_b1 (d : Detector) (ps : List Vec3) (v1 v2 v3 : Vec3) :
    (mkCrystal d ps v1 v2 v3).b1 =
      recip1 (d.lattice_const • v1) (d.lattice_const • v2) (d.lattice_const • v3) := rfl

@[simp] theorem mkCrystal_b2 (d : Detector) (ps : List Vec3) (v1 v2 v3 : Vec3) :
    (mkCrystal d ps v1 v2 v3).b2 =
      recip2 (d.lattice_const • v1) (d.lattice_const • v2) (d.lattice_const • v3) := rfl

@[simp] theorem mkCrystal_b3 (d : Detector) (ps : List Vec3) (v1 v2 v3 : Vec3) :
    (mkCrystal d ps v1 v2 v3).b3 =
      recip3 (d.lattice_const • v1) (d.lattice_const • v2) (d.lattice_const • v3) := rfl

theorem Crystal.init_ok {det_file : DetFile} {material : String} {ps : List Vec3}
    {v1 v2 v3 : Vec3} {vol den fid : ℝ} {c : Crystal}
    (hc : Crystal.init det_file material ps v1 v2 v3 vol den fid = Except.ok c) :
    ∃ d, Detector.init det_file material fid vol den none = Except.ok d ∧
      c = mkCrystal d ps v1 v2 v3 := by
  unfold Crystal.init at hc
  cases hd : Detector.init det_file material fid vol den none with
  | ok d =>
      rw [hd] at hc
      simp only [Except.map, Except.ok.injEq] at hc
      exact ⟨d, rfl, hc.symm⟩
  | error e =>
      rw [hd] at hc
      simp [Except.map] at hc

theorem map_some_ok {res : Except String Crystal} {c : Crystal}
    (h : res.map some = Except.ok (some c)) : res = Except.ok c := by
  cases res with
  | ok c2 =>
      simp only [Except.map, Except.ok.injEq, Option.some.injEq] at h
      rw [h]
  | error e => simp [Except.map] at h

theorem Gvec_ne_zero (A1 A2 A3 : Vec3) (ht : dot A1 (cross A2 A3) ≠ 0)
    (h k l : ℤ) (hnz : ¬(h = 0 ∧ k = 0 ∧ l = 0)) :
    (h : ℝ) • recip1 A1 A2 A3 + (k : ℝ) • recip2 A1 A2 A3 + (l : ℝ) • recip3 A1 A2 A3 ≠ 0 := by
  intro h0
  have htwoPi : (2 : ℝ) * π ≠ 0 := by positivity
  have d1 : dot A1 ((h : ℝ) • recip1 A1 A2 A3 + (k : ℝ) • recip2 A1 A2 A3
      + (l : ℝ) • recip3 A1 A2 A3) = 2 * π * h := by
    rw [dot_add_right, dot_add_right, dot_smul_right, dot_smul_right, dot_smul_right,
      dot_a1_b1 _ _ _ ht, dot_a1_b2 _ _ _ ht, dot_a1_b3 _ _ _ ht]
    ring
  have d2 : dot A2 ((h : ℝ) • recip1 A1 A2 A3 + (k : ℝ) • recip2 A1 A2 A3
      + (l : ℝ) • recip3 A1 A2 A3) = 2 * π * k := by
    rw [dot_add_right, dot_add_right, dot_smul_right, dot_smul_right, dot_smul_right,
      dot_a2_b1 _ _ _ ht, dot_a2_b2 _ _ _ ht, dot_a2_b3 _ _ _ ht]
    ring
  have d3 : dot A3 ((h : ℝ) • recip1 A1 A2 A3 + (k : ℝ) • recip2 A1 A2 A3
      + (l : ℝ) • recip3 A1 A2 A3) = 2 * π * l := by
    rw [dot_add_right, dot_add_right, dot_smul_right, dot_smul_right, dot_smul_right,
      dot_a3_b1 _ _ _ ht, dot_a3_b2 _ _ _ ht, dot_a3_b3 _ _ _ ht]
    ring
  rw [h0, dot_zero_right] at d1 d2 d3
  have hh : h = 0 := by
    have := (mul_eq_zero.mp d1.symm).resolve_left htwoPi
    exact_mod_cast this
  have hk : k = 0 := by
    have := (mul_eq_zero.mp d2.symm).resolve_left htwoPi
    exact_mod_cast this
  have hl : l = 0 := by
    have := (mul_eq_zero.mp d3.symm).resolve_left htwoPi
    exact_mod_cast this
  exact hnz ⟨hh, hk, hl⟩

theorem sample_init_eq :
    Crystal.init sampleDetFile "ge" samplePrims e1 e2 e3 1 1 1 = Except.ok sampleCrystal := rfl

theorem sample_triple_ne_zero :
    dot sampleCrystal.a1 (cross sampleCrystal.a2 sampleCrystal.a3) ≠ 0 := by
  simp [sampleCrystal, sampleDetector, samplePrims, e1, e2, e3, dot, cross, mkCrystal]

theorem sample_G_ne_zero : sampleCrystal.G 1 0 0 ≠ 0 := by
  have ht := sample_triple_ne_zero
  simp only [sampleCrystal, mkCrystal_a1, mkCrystal_a2, mkCrystal_a3] at ht
  exact Gvec_ne_zero _ _ _ ht 1 0 0 (by decide)

/-! Theorems settling the claims. -/

/-- C1: for every Crystal constructed from lattice vectors whose scalar triple
product `dot(a1, cross(a2, a3))` is nonzero, the derived reciprocal-lattice
vectors `b1, b2, b3` (the direct-to-reciprocal transform and its cyclic
permutations) satisfy the duality relations `dot(a_i, b_j) = 2*pi` when
`i = j` and `0` otherwise, for all nine index pairs. -/
theorem C1_reciprocal_duality (det_file : DetFile) (material : String) (ps : List Vec3)
    (v1 v2 v3 : Vec3) (vol den fid : ℝ) (c : Crystal)
    (hc : Crystal.init det_file material ps v1 v2 v3 vol den fid = Except.ok c)
    (ht : dot c.a1 (cross c.a2 c.a3) ≠ 0) :
    dot c.a1 c.b1 = 2 * π ∧ dot c.a1 c.b2 = 0 ∧ dot c.a1 c.b3 = 0 ∧
    dot c.a2 c.b1 = 0 ∧ dot c.a2 c.b2 = 2 * π ∧ dot c.a2 c.b3 = 0 ∧
    dot c.a3 c.b1 = 0 ∧ dot c.a3 c.b2 = 0 ∧ dot c.a3 c.b3 = 2 * π := by
  obtain ⟨d, _, rfl⟩ := Crystal.init_ok hc
  simp only [mkCrystal_a1, mkCrystal_a2, mkCrystal_a3] at ht
  simp only [mkCrystal_a1, mkCrystal_a2, mkCrystal_a3, mkCrystal_b1, mkCrystal_b2,
    mkCrystal_b3]
  exact ⟨dot_a1_b1 _ _ _ ht, dot_a1_b2 _ _ _ ht, dot_a1_b3 _ _ _ ht,
    dot_a2_b1 _ _ _ ht, dot_a2_b2 _ _ _ ht, dot_a2_b3 _ _ _ ht,
    dot_a3_b1 _ _ _ ht, dot_a3_b2 _ _ _ ht, dot_a3_b3 _ _ _ ht⟩

/-- Witness for C1 at a concrete cubic crystal with unit lattice constant. -/
theorem C1_reciprocal_duality_witness :
    Crystal.init sampleDetFile "ge" samplePrims e1 e2 e3 1 1 1 = Except.ok sampleCrystal ∧
    dot sampleCrystal.a1 (cross sampleCrystal.a2 sampleCrystal.a3) ≠ 0 ∧
    dot sampleCrystal.a1 sampleCrystal.b1 = 2 * π := by
  refine ⟨sample_init_eq, sample_triple_ne_zero, ?_⟩
  exact (C1_reciprocal_duality _ _ _ _ _ _ _ _ _ _ sample_init_eq sample_triple_ne_zero).1

/-- C2: for every constructed Crystal and all Miller indices, `sfunc(h, k, l)`
equals the magnitude of `(1 + exp(-i*dot(alpha[1], G(h,k,l))))` multiplied by
the sum over the four basis vectors `a0, a1, a2, a3` of
`exp(-2*pi*i*dot((h,k,l), v/a))`. -/
theorem C2_sfunc_formula (det_file : DetFile) (material : String) (ps : List Vec3)
    (v1 v2 v3 : Vec3) (vol den fid : ℝ) (c : Crystal)
    (hc : Crystal.init det_file material ps v1 v2 v3 vol den fid = Except.ok c)
    (h k l : ℤ) :
    c.sfunc h k l = sfuncSpec c h k l := by
  obtain ⟨d, _, rfl⟩ := Crystal.init_ok hc
  unfold Crystal.sfunc sfuncSpec
  simp only [mkCrystal_basis, mkCrystal_a0, mkCrystal_a1, mkCrystal_a2, mkCrystal_a3,
    List.map_cons, List.map_nil, List.sum_cons, List.sum_nil]
  congr 1
  ring

/-- Witness for C2 at a concrete crystal and Miller index `(1, 2, 3)`. -/
theorem C2_sfunc_formula_witness :
    Crystal.init sampleDetFile "ge" samplePrims e1 e2 e3 1 1 1 = Except.ok sampleCrystal ∧
    sampleCrystal.sfunc 1 2 3 = sfuncSpec sampleCrystal 1 2 3 :=
  ⟨sample_init_eq, C2_sfunc_formula _ _ _ _ _ _ _ _ _ _ sample_init_eq 1 2 3⟩

/-- C3: for every Crystal and Miller indices with `G(h,k,l)` nonzero,
`wavelength = 2*pi/|G|` and `energy = HBARC*|G|`, so the product
`energy * wavelength` equals `2*pi*HBARC`. -/
theorem C3_energy_wavelength (c : Crystal) (h k l : ℤ) (hG : c.G h k l ≠ 0) :
    c.wavelength h k l = 2 * π / Real.sqrt (dot (c.G h k l) (c.G h k l)) ∧
    c.energy h k l = HBARC * Real.sqrt (dot (c.G h k l) (c.G h k l)) ∧
    c.energy h k l * c.wavelength h k l = 2 * π * HBARC := by
  refine ⟨rfl, rfl, ?_⟩
  have hpos : 0 < dot (c.G h k l) (c.G h k l) := dot_self_pos _ hG
  have hs : Real.sqrt (dot (c.G h k l) (c.G h k l)) ≠ 0 := by positivity
  unfold Crystal.energy Crystal.wavelength
  field_simp
  ring

/-- Witness for C3 at a concrete cubic crystal and Miller index `(1, 0, 0)`. -/
theorem C3_energy_wavelength_witness :
    sampleCrystal.G 1 0 0 ≠ 0 ∧
    sampleCrystal.energy 1 0 0 * sampleCrystal.wavelength 1 0 0 = 2 * π * HBARC :=
  ⟨sample_G_ne_zero, (C3_energy_wavelength sampleCrystal 1 0 0 sample_G_ne_zero).2.2⟩

/-- C7: the structure-factor magnitude `sfunc` is always a non-negative real
number (it is the absolute value of a complex quantity). -/
theorem C7_sfunc_nonneg (c : Crystal) (h k l : ℤ) : 0 ≤ c.sfunc h k l := by
  unfold Crystal.sfunc
  exact Complex.abs.nonneg _

/-- C10: the maps `G` and `r` are Z^3-linear in their index arguments:
additive, compatible with integer scaling, and zero at the zero index. -/
theorem C10_G_r_linear (c : Crystal) (h k l h' k' l' : ℤ) (n : ℤ) :
    c.G (h + h') (k + k') (l + l') = c.G h k l + c.G h' k' l' ∧
    c.G (n * h) (n * k) (n * l) = (n : ℝ) • c.G h k l ∧
    c.G 0 0 0 = 0 ∧
    c.r (h + h') (k + k') (l + l') = c.r h k l + c.r h' k' l' ∧
    c.r (n * h) (n * k) (n * l) = (n : ℝ) • c.r h k l ∧
    c.r 0 0 0 = 0 := by
  refine ⟨?_, ?_, ?_, ?_, ?_, ?_⟩ <;>
    · ext <;> simp [Crystal.G, Crystal.r] <;> push_cast <;> ring

/-- C4: constructing a Detector with material name `d` raises exactly when
`d.lower()` is absent from the reference-data mapping; when present, the
constructor returns normally with all the named physical constants stored. -/
theorem C4_detector_lookup (det_file : DetFile) (d : String) (fid vol den : ℝ)
    (eff : Option ℝ) :
    ((∃ msg, Detector.init det_file d fid vol den eff = Except.error msg) ↔
      det_file (strLower d) = none) ∧
    (∀ info, det_file (strLower d) = some info →
      Detector.init det_file d fid vol den eff = Except.ok
        { det_type := d, efficiency := eff, iso := info.iso, z := info.z, n := info.n,
          m := info.m, frac := info.frac, lattice_const := info.lattice_const,
          cell_volume := info.cell_volume, r0 := info.atomic_radius,
          er_min := info.er_min, er_max := info.er_max, bg := info.bg,
          bg_un := info.bg_un, fid_mass := fid, volume := vol, density := den }) := by
  cases hdf : det_file (strLower d) with
  | some info =>
      constructor
      · constructor
        · rintro ⟨msg, hmsg⟩
          unfold Detector.init at hmsg
          rw [hdf] at hmsg
          exact Except.noConfusion hmsg
        · intro hcontra
          cases hcontra
      · intro info2 h2
        injection h2 with h3
        subst h3
        unfold Detector.init
        rw [hdf]
  | none =>
      constructor
      · constructor
        · intro _
          rfl
        · intro _
          exact ⟨"No such detector in det_params.json.", by unfold Detector.init; rw [hdf]⟩
      · intro info h2
        cases h2

/-- Witness for C4: a present material stores the constants, an absent one raises. -/
theorem C4_detector_lookup_witness :
    sampleDetFile (strLower "Ge") = some sampleInfo ∧
    Detector.init sampleDetFile "Ge" 1 1 1 none = Except.ok
      { det_type := "Ge", efficiency := none, iso := 1, z := [32], n := [41], m := [67],
        frac := [1], lattice_const := 1, cell_volume := 1, r0 := 1, er_min := 0,
        er_max := 1, bg := 0, bg_un := 0, fid_mass := 1, volume := 1, density := 1 } ∧
    Detector.init emptyDetFile "Ge" 1 1 1 none =
      Except.error "No such detector in det_params.json." := by
  refine ⟨rfl, ?_, rfl⟩
  exact (C4_detector_lookup sampleDetFile "Ge" 1 1 1 none).2 sampleInfo rfl

/-- C5: `get_crystal` returns a Crystal exactly for the names `Ge` and `NaI`
(assuming the reference data knows `ge` and `nai`); the stubbed materials `Si`
and `CsI` and every name outside the list yield `None` without raising. -/
theorem C5_get_crystal (det_file : DetFile) (i1 i2 : DetInfo)
    (hge : det_file "ge" = some i1) (hnai : det_file "nai" = some i2) (name : String) :
    ((∃ c, get_crystal det_file name = Except.ok (some c)) ↔
      (name = "Ge" ∨ name = "NaI")) ∧
    (name ≠ "Ge" → name ≠ "NaI" → get_crystal det_file name = Except.ok none) := by
  have hlge : strLower "Ge" = "ge" := by decide
  have hlnai : strLower "NaI" = "nai" := by decide
  have hdge : ∃ dg, Detector.init det_file "Ge" 1 1 1 none = Except.ok dg := by
    unfold Detector.init
    rw [hlge, hge]
    exact ⟨_, rfl⟩
  obtain ⟨dg, hdge⟩ := hdge
  have hdnai : ∃ dn, Detector.init det_file "NaI" 1 1 1 none = Except.ok dn := by
    unfold Detector.init
    rw [hlnai, hnai]
    exact ⟨_, rfl⟩
  obtain ⟨dn, hdnai⟩ := hdnai
  have hGeEq : get_crystal det_file "Ge" =
      Except.ok (some (mkCrystal dg [geAlpha0, geAlpha1] fccA1 fccA2 fccA3)) := by
    unfold get_crystal
    rw [if_neg (by decide : ¬("Ge" ∉ cryslist)), if_pos rfl]
    unfold Crystal.init
    rw [hdge]
    rfl
  have hNaIEq : get_crystal det_file "NaI" =
      Except.ok (some (mkCrystal dn [naiAlpha0, naiAlpha1] fccA1 fccA2 fccA3)) := by
    unfold get_crystal
    rw [if_neg (by decide : ¬("NaI" ∉ cryslist)), if_neg (by decide : ¬("NaI" = "Ge")),
      if_neg (by decide : ¬("NaI" = "Si")), if_pos rfl]
    unfold Crystal.init
    rw [hdnai]
    rfl
  by_cases hisGe : name = "Ge"
  · subst hisGe
    exact ⟨⟨fun _ => Or.inl rfl, fun _ => ⟨_, hGeEq⟩⟩, fun hne _ => absurd rfl hne⟩
  · by_cases hisNaI : name = "NaI"
    · subst hisNaI
      exact ⟨⟨fun _ => Or.inr rfl, fun _ => ⟨_, hNaIEq⟩⟩, fun _ hne => absurd rfl hne⟩
    · have hnone : get_crystal det_file name = Except.ok none := by
        by_cases hisSi : name = "Si"
        · subst hisSi
          unfold get_crystal
          rw [if_neg (by decide : ¬("Si" ∉ cryslist)), if_neg (by decide : ¬("Si" = "Ge")),
            if_pos rfl]
        · by_cases hisCsI : name = "CsI"
          · subst hisCsI
            unfold get_crystal
            rw [if_neg (by decide : ¬("CsI" ∉ cryslist)),
              if_neg (by decide : ¬("CsI" = "Ge")), if_neg (by decide : ¬("CsI" = "Si")),
              if_neg (by decide : ¬("CsI" = "NaI"))]
          · have hmem : name ∉ cryslist := by
              simp [cryslist, hisGe, hisNaI, hisSi, hisCsI]
            unfold get_crystal
            rw [if_pos hmem]
      constructor
      · constructor
        · rintro ⟨c, hcc⟩
          rw [hnone] at hcc
          simp at hcc
        · intro hor
          rcases hor with hor | hor
          · exact absurd hor hisGe
          · exact absurd hor hisNaI
      · intro _ _
        exact hnone

/-- Witness for C5: with both materials present in the reference data, the
stubbed name `Si` yields `None` and `Ge` yields a crystal. -/
theorem C5_get_crystal_witness :
    sampleDetFile "ge" = some sampleInfo ∧ sampleDetFile "nai" = some sampleInfo ∧
    get_crystal sampleDetFile "Si" = Except.ok none := by
  refine ⟨rfl, rfl, ?_⟩
  exact (C5_get_crystal sampleDetFile sampleInfo sampleInfo rfl rfl "Si").2
    (by decide) (by decide)

/-- C6: every Crystal method is a pure query: in state-passing form the
post-state equals the receiver, every field is unchanged, and a repeated call
with the same arguments returns the same value. -/
theorem C6_methods_pure (c : Crystal) (n1 n2 n3 h k l : ℤ) :
    (c.rCall n1 n2 n3).2 = c ∧ (c.GCall h k l).2 = c ∧
    (c.wavelengthCall h k l).2 = c ∧ (c.energyCall h k l).2 = c ∧
    (c.millerCall h k l).2 = c ∧ (c.sfuncCall h k l).2 = c ∧
    (((c.rCall n1 n2 n3).2).rCall n1 n2 n3).1 = (c.rCall n1 n2 n3).1 ∧
    (((c.GCall h k l).2).GCall h k l).1 = (c.GCall h k l).1 ∧
    (((c.wavelengthCall h k l).2).wavelengthCall h k l).1 = (c.wavelengthCall h k l).1 ∧
    (((c.energyCall h k l).2).energyCall h k l).1 = (c.energyCall h k l).1 ∧
    (((c.millerCall h k l).2).millerCall h k l).1 = (c.millerCall h k l).1 ∧
    (((c.sfuncCall h k l).2).sfuncCall h k l).1 = (c.sfuncCall h k l).1 :=
  ⟨rfl, rfl, rfl, rfl, rfl, rfl, rfl, rfl, rfl, rfl, rfl, rfl⟩

/-- C8: every crystal returned by `get_crystal` stores a basis of exactly four
3-vectors and exactly two scaled primitives, with the basis assembled from
`a0, a1, a2, a3`; all other stored vectors are 3-vectors by construction. -/
theorem C8_array_shapes (det_file : DetFile) (name : String) (c : Crystal)
    (hc : get_crystal det_file name = Except.ok (some c)) :
    c.basis.length = 4 ∧ c.alpha.length = 2 ∧ c.basis = [c.a0, c.a1, c.a2, c.a3] := by
  unfold get_crystal at hc
  by_cases hmem : name ∉ cryslist
  · rw [if_pos hmem] at hc
    exact absurd hc (by simp)
  · rw [if_neg hmem] at hc
    by_cases hGe : name = "Ge"
    · rw [if_pos hGe] at hc
      obtain ⟨d, _, rfl⟩ := Crystal.init_ok (map_some_ok hc)
      exact ⟨rfl, rfl, rfl⟩
    · rw [if_neg hGe] at hc
      by_cases hSi : name = "Si"
      · rw [if_pos hSi] at hc
        exact absurd hc (by simp)
      · rw [if_neg hSi] at hc
        by_cases hNaI : name = "NaI"
        · rw [if_pos hNaI] at hc
          obtain ⟨d, _, rfl⟩ := Crystal.init_ok (map_some_ok hc)
          exact ⟨rfl, rfl, rfl⟩
        · rw [if_neg hNaI] at hc
          exact absurd hc (by simp)

/-- Witness for C8 at the germanium crystal returned by `get_crystal`. -/
theorem C8_array_shapes_witness :
    get_crystal sampleDetFile "Ge" = Except.ok (some geSampleCrystal) ∧
    geSampleCrystal.basis.length = 4 ∧ geSampleCrystal.alpha.length = 2 := by
  have hc : get_crystal sampleDetFile "Ge" = Except.ok (some geSampleCrystal) := rfl
  have hshapes := C8_array_shapes sampleDetFile "Ge" geSampleCrystal hc
  exact ⟨hc, hshapes.1, hshapes.2.1⟩

/-- C9: `wavelength` and `energy` are unguarded at the zero Miller index:
`G(0,0,0)` is the zero vector, the divisor `sqrt(dot(G,G))` in `wavelength`
is then zero and `energy(0,0,0) = 0`; for any nonzero index triple and
linearly independent lattice vectors (nonzero scalar triple product) the
divisor is positive, and the constructor itself divides by the unguarded
triple product `dot(a1, cross(a2, a3))`. -/
theorem C9_zero_index_unguarded (det_file : DetFile) (material : String) (ps : List Vec3)
    (v1 v2 v3 : Vec3) (vol den fid : ℝ) (c : Crystal)
    (hc : Crystal.init det_file material ps v1 v2 v3 vol den fid = Except.ok c) :
    c.G 0 0 0 = 0 ∧
    Real.sqrt (dot (c.G 0 0 0) (c.G 0 0 0)) = 0 ∧
    c.wavelength 0 0 0 = 2 * π / 0 ∧
    c.energy 0 0 0 = 0 ∧
    c.b1 = vdiv ((2 * π) • cross c.a2 c.a3) (dot c.a1 (cross c.a2 c.a3)) ∧
    (dot c.a1 (cross c.a2 c.a3) ≠ 0 → ∀ h k l : ℤ, ¬(h = 0 ∧ k = 0 ∧ l = 0) →
      0 < dot (c.G h k l) (c.G h k l)) := by
  have hG0 : c.G 0 0 0 = 0 := by
    ext <;> simp [Crystal.G]
  have hsq : Real.sqrt (dot (c.G 0 0 0) (c.G 0 0 0)) = 0 := by
    rw [hG0, dot_zero_right, Real.sqrt_zero]
  obtain ⟨d, _, rfl⟩ := Crystal.init_ok hc
  refine ⟨hG0, hsq, ?_, ?_, rfl, ?_⟩
  · unfold Crystal.wavelength
    rw [hsq]
  · unfold Crystal.energy
    rw [hsq, mul_zero]
  · intro ht h k l hnz
    apply dot_self_pos
    simp only [mkCrystal_a1, mkCrystal_a2, mkCrystal_a3] at ht
    exact Gvec_ne_zero _ _ _ ht h k l hnz

/-- Witness for C9 at a concrete cubic crystal and the index `(1, 0, 0)`. -/
theorem C9_zero_index_unguarded_witness :
    Crystal.init sampleDetFile "ge" samplePrims e1 e2 e3 1 1 1 = Except.ok sampleCrystal ∧
    dot sampleCrystal.a1 (cross sampleCrystal.a2 sampleCrystal.a3) ≠ 0 ∧
    ¬((1 : ℤ) = 0 ∧ (0 : ℤ) = 0 ∧ (0 : ℤ) = 0) ∧
    0 < dot (sampleCrystal.G 1 0 0) (sampleCrystal.G 1 0 0) := by
  refine ⟨sample_init_eq, sample_triple_ne_zero, by decide, ?_⟩
  exact (C9_zero_index_unguarded _ _ _ _ _ _ _ _ _ _
    sample_init_eq).2.2.2.2.2 sample_triple_ne_zero 1 0 0 (by decide)

end AtomicBSM

end
